import Mathlib

/-
  Shallow embedding of the tempestas weather-station program
  (src/weather_station.py, src/sensortestor.py) and proofs of the
  specification claims about it.

  Readings are modelled as `Option ℚ`: `none` is the "unavailable"
  marker (NaN in the source), `some v` a numeric value.
-/

namespace Tempestas

/- ----------------------------------------------------------------
   Median aggregation.

   `median` embeds the function `median` of src/sensortestor.py
   (sort, then middle element for odd length, mean of the two middle
   elements for even length; Python integer division `n // 2`).

   `nanmedian` embeds the behaviour of `np.nanmedian` as used by
   `makedata_time` in src/weather_station.py: NaN (unavailable)
   entries are dropped before the median is taken, and an empty
   residue yields NaN (here `none`).
   ---------------------------------------------------------------- -/

def median (data : List ℚ) : ℚ :=
  let sorted_data := data.insertionSort (fun a b => a ≤ b)
  let n := sorted_data.length
  if n % 2 = 1 then
    sorted_data.getD (n / 2) 0
  else
    (sorted_data.getD (n / 2 - 1) 0 + sorted_data.getD (n / 2) 0) / 2

def nanmedian (w : List (Option ℚ)) : Option ℚ :=
  let valid := w.filterMap id
  if valid.isEmpty then none else some (median valid)

/- ----------------------------------------------------------------
   Transfer agent: `scp_with_retries` of src/weather_station.py.

   The copy primitive is abstracted as `succeeds : ℕ → Bool`, telling
   for each attempt number (1-based, as in the source's
   `range(1, SCP_MAX_RETRIES + 1)`) whether the `scp` subprocess
   exits successfully.  The trace records the returned flag, how many
   times the primitive was invoked, and the list of back-off sleeps
   (in seconds) performed between consecutive attempts.
   ---------------------------------------------------------------- -/

def SCP_MAX_RETRIES : ℕ := 3

structure ScpTrace where
  ok : Bool
  calls : ℕ
  sleeps : List ℕ
deriving DecidableEq, Repr

def scpLoop (succeeds : ℕ → Bool) : ℕ → ℕ → ScpTrace
  | _, 0 => ⟨false, 0, []⟩
  | attempt, fuel + 1 =>
    if succeeds attempt then
      ⟨true, 1, []⟩
    else if attempt < SCP_MAX_RETRIES then
      let t := scpLoop succeeds (attempt + 1) fuel
      ⟨t.ok, t.calls + 1, 5 :: t.sleeps⟩
    else
      ⟨false, 1, []⟩

def scp_with_retries (succeeds : ℕ → Bool) : ScpTrace :=
  scpLoop succeeds 1 SCP_MAX_RETRIES

/- ----------------------------------------------------------------
   Transfer cycle: `send_data` of src/weather_station.py.

   Image artifacts are identified by their timestamp-derived names;
   since the names are fixed-width `%Y%m%d_%H%M%S` stamps, their
   lexicographic order coincides with creation order, modelled here
   by naming each image with a natural-number timestamp.  `sorted`
   over the glob is `insertionSort`, and `image_files[-MAX:]` is
   `drop (length - MAX)`.

   `imgSucc p` is the per-attempt outcome function of the copy
   primitive for image `p`; `wSucc`, `sSucc` those of the weather and
   system CSV transfers.  The trace records the per-candidate
   outcomes, the images still present locally afterwards, the CSV
   outcomes, and whether either CSV file was deleted (the source
   contains no removal of the CSVs in `send_data`).
   ---------------------------------------------------------------- -/

def MAX_IMAGE_FILES : ℕ := 100

def selectCandidates (images : List ℕ) : List ℕ :=
  let image_files := images.insertionSort (fun a b => a ≤ b)
  if MAX_IMAGE_FILES < image_files.length then
    image_files.drop (image_files.length - MAX_IMAGE_FILES)
  else
    image_files

structure SendTrace where
  imageOutcomes : List (ℕ × Bool)
  remaining : List ℕ
  weatherOk : Bool
  systemOk : Bool
  weatherDeleted : Bool
  systemDeleted : Bool
deriving DecidableEq, Repr

def send_data (images : List ℕ) (imgSucc : ℕ → ℕ → Bool)
    (wSucc sSucc : ℕ → Bool) : SendTrace :=
  let outcomes := (selectCandidates images).map
    (fun p => (p, (scp_with_retries (imgSucc p)).ok))
  let deleted := (outcomes.filter (fun x => x.2)).map Prod.fst
  { imageOutcomes := outcomes
    remaining := images.filter (fun p => !(deleted.contains p))
    weatherOk := (scp_with_retries wSucc).ok
    systemOk := (scp_with_retries sSucc).ok
    weatherDeleted := false
    systemDeleted := false }

/- ----------------------------------------------------------------
   Durable logs: `ensure_paths` and `del_data` of src/weather_station.py.

   A CSV file is a list of rows, each row a list of cell strings.
   `weatherHeaderCreate` / `systemHeaderCreate` are the header rows
   written by `ensure_paths` when a file is absent;
   `weatherHeaderTrunc` / `systemHeaderTrunc` are the header rows
   rewritten by `del_data` when it truncates the files.  They are
   kept as separate literals so their equality is a proved fact, not
   an assumption.
   ---------------------------------------------------------------- -/

def weatherHeaderCreate : List String :=
  ["Timestamp", "BMP_Temperature_C", "BMP_Pressure_hPa", "BMP_Altitude_m",
   "DHT_Temperature_C", "DHT_Humidity_percent", "BH1750_Light_lx"]

def systemHeaderCreate : List String :=
  ["Timestamp", "CPU_Temperature_C", "CPU_Usage_percent", "Memory_Usage_percent"]

def weatherHeaderTrunc : List String :=
  ["Timestamp", "BMP_Temperature_C", "BMP_Pressure_hPa", "BMP_Altitude_m",
   "DHT_Temperature_C", "DHT_Humidity_percent", "BH1750_Light_lx"]

def systemHeaderTrunc : List String :=
  ["Timestamp", "CPU_Temperature_C", "CPU_Usage_percent", "Memory_Usage_percent"]

def ensure_file (existing : Option (List (List String))) (header : List String) :
    List (List String) :=
  match existing with
  | none => [header]
  | some f => f

def del_data : List (List String) × List (List String) :=
  ([weatherHeaderTrunc], [systemHeaderTrunc])

def appendRow (f : List (List String)) (row : List String) : List (List String) :=
  f ++ [row]

/- ----------------------------------------------------------------
   Aggregate rows written by the sampling passes.
   ---------------------------------------------------------------- -/

structure WeatherRow where
  bmpTemp : Option ℚ
  pressure : Option ℚ
  altitude : Option ℚ
  dhtTemp : Option ℚ
  humidity : Option ℚ
  light : Option ℚ
deriving DecidableEq, Repr

structure SystemRow where
  cpuTemp : Option ℚ
  cpuUsage : Option ℚ
  memUsage : Option ℚ
deriving DecidableEq, Repr

/- ----------------------------------------------------------------
   Windowed aggregation pass: `makedata_time` of src/weather_station.py.

   One collection-loop iteration appends, in source order, to the
   lists bmp_temps, pressures, altitudes, light_levels, dht_temps,
   humidities, cpu_temps, cpu_usages, memory_usages (indices 0-8).
   An exception raised inside the try block cuts the iteration short:
   `completed` is the number of appends performed before it (9 when
   the whole block ran).  The wall-clock loop itself is abstracted as
   the finite list of iterations it performs.
   ---------------------------------------------------------------- -/

structure IterOutcome where
  bmpTemp : Option ℚ
  pressure : Option ℚ
  altitude : Option ℚ
  light : Option ℚ
  dhtTemp : Option ℚ
  humidity : Option ℚ
  cpuTemp : Option ℚ
  cpuUsage : Option ℚ
  memUsage : Option ℚ
  completed : ℕ
deriving DecidableEq, Repr

def collect (iters : List IterOutcome) (idx : ℕ) (f : IterOutcome → Option ℚ) :
    List (Option ℚ) :=
  iters.filterMap (fun it => if idx < it.completed then some (f it) else none)

def makedata_time (iters : List IterOutcome) : Option (WeatherRow × SystemRow) :=
  let bmp_temps := collect iters 0 (fun it => it.bmpTemp)
  let pressures := collect iters 1 (fun it => it.pressure)
  let altitudes := collect iters 2 (fun it => it.altitude)
  let light_levels := collect iters 3 (fun it => it.light)
  let dht_temps := collect iters 4 (fun it => it.dhtTemp)
  let humidities := collect iters 5 (fun it => it.humidity)
  let cpu_temps := collect iters 6 (fun it => it.cpuTemp)
  let cpu_usages := collect iters 7 (fun it => it.cpuUsage)
  let memory_usages := collect iters 8 (fun it => it.memUsage)
  if bmp_temps.isEmpty then none
  else
    some
      ({ bmpTemp := nanmedian bmp_temps, pressure := nanmedian pressures,
         altitude := nanmedian altitudes, dhtTemp := nanmedian dht_temps,
         humidity := nanmedian humidities, light := nanmedian light_levels },
       { cpuTemp := nanmedian cpu_temps, cpuUsage := nanmedian cpu_usages,
         memUsage := nanmedian memory_usages })

def makedata_time_logs (iters : List IterOutcome)
    (logs : List WeatherRow × List SystemRow) : List WeatherRow × List SystemRow :=
  match makedata_time iters with
  | none => logs
  | some (rw, rs) => (logs.1 ++ [rw], logs.2 ++ [rs])

/- ----------------------------------------------------------------
   Single-shot pass: `makedata`, `safe_float`, `read_dht`,
   `read_bh1750`, `get_cpu_temp` of src/weather_station.py.

   A raw driver access either raises (`Except.error ()`) or yields a
   raw Python value: a number, `None`, or something `float()` rejects.
   `safe_float` embeds the source function of the same name (default
   `np.nan`, here `none`).  In `makedata`, the BMP reads and the
   cpu-usage / memory reads are NOT guarded against raising: Python
   evaluates `bmp_sensor.read_temperature()` before `safe_float` is
   entered, so a raise there propagates out of the pass.  The DHT,
   BH1750 and cpu-temperature helpers catch internally.
   ---------------------------------------------------------------- -/

inductive RawVal where
  | num (v : ℚ)
  | pyNone
  | nonNumeric
deriving DecidableEq, Repr

def safe_float : RawVal → Option ℚ
  | .num v => some v
  | .pyNone => none
  | .nonNumeric => none

def read_dht (present : Bool) (access : Except Unit (RawVal × RawVal)) :
    Option ℚ × Option ℚ :=
  if present then
    match access with
    | .ok (t, h) => (safe_float t, safe_float h)
    | .error _ => (none, none)
  else
    (none, none)

def read_bh1750 (present : Bool) (access : Except Unit RawVal) : Option ℚ :=
  if present then
    match access with
    | .ok v => safe_float v
    | .error _ => none
  else
    none

def get_cpu_temp (access : Except Unit ℚ) : Option ℚ :=
  match access with
  | .ok v => some v
  | .error _ => none

structure Reads where
  bmpTemperature : Except Unit RawVal
  bmpPressure : Except Unit RawVal
  bmpAltitude : Except Unit RawVal
  dhtPresent : Bool
  dhtAccess : Except Unit (RawVal × RawVal)
  lightPresent : Bool
  lightAccess : Except Unit RawVal
  cpuTempAccess : Except Unit ℚ
  cpuUsage : Except Unit ℚ
  memUsage : Except Unit ℚ

def makedata (r : Reads) : Except Unit (WeatherRow × SystemRow) := do
  let tb ← r.bmpTemperature
  let pr ← r.bmpPressure
  let al ← r.bmpAltitude
  let ll := read_bh1750 r.lightPresent r.lightAccess
  let dh := read_dht r.dhtPresent r.dhtAccess
  let ct := get_cpu_temp r.cpuTempAccess
  let cu ← r.cpuUsage
  let mu ← r.memUsage
  return ({ bmpTemp := safe_float tb, pressure := (safe_float pr).map (fun x => x / 100),
            altitude := safe_float al, dhtTemp := dh.1, humidity := dh.2, light := ll },
          { cpuTemp := ct, cpuUsage := some cu, memUsage := some mu })

/- ----------------------------------------------------------------
   Scheduler loop: `main` of src/weather_station.py.

   One loop iteration's body either completes, raises RuntimeError
   (the sensor-error case: caught, printed, 2 s sleep, continue),
   raises KeyboardInterrupt (printed, break), or raises any other
   exception (printed, break).  The loop is driven by the finite list
   of iteration events it would encounter.
   ---------------------------------------------------------------- -/

inductive LoopEvent where
  | ok
  | sensorError
  | interrupt
  | unexpected
deriving DecidableEq, Repr

inductive ExitKind where
  | interrupted
  | crashed
  | outOfEvents
deriving DecidableEq, Repr

structure LoopTrace where
  iterations : ℕ
  errorLogs : ℕ
  briefSleeps : ℕ
  exitKind : ExitKind
deriving DecidableEq, Repr

def mainLoop : List LoopEvent → LoopTrace
  | [] => ⟨0, 0, 0, .outOfEvents⟩
  | .ok :: rest =>
    let t := mainLoop rest
    ⟨t.iterations + 1, t.errorLogs, t.briefSleeps, t.exitKind⟩
  | .sensorError :: rest =>
    let t := mainLoop rest
    ⟨t.iterations + 1, t.errorLogs + 1, t.briefSleeps + 1, t.exitKind⟩
  | .interrupt :: _ => ⟨1, 0, 0, .interrupted⟩
  | .unexpected :: _ => ⟨1, 1, 0, .crashed⟩

/- ----------------------------------------------------------------
   Concrete scenario inputs used by the theorems below.
   ---------------------------------------------------------------- -/

/-- One windowed-pass iteration that raised before its first append. -/
def abortedIter : IterOutcome :=
  { bmpTemp := some 20, pressure := some 1000, altitude := some 100,
    light := some 50, dhtTemp := some 21, humidity := some 40,
    cpuTemp := some 45, cpuUsage := some 10, memUsage := some 30,
    completed := 0 }

/-- One complete windowed-pass iteration whose DHT readings were NaN. -/
def dhtMissingIter : IterOutcome :=
  { bmpTemp := some 20, pressure := some 1000, altitude := some 100,
    light := some 50, dhtTemp := none, humidity := none,
    cpuTemp := some 45, cpuUsage := some 10, memUsage := some 30,
    completed := 9 }

/-- Sensor reads where the raw BMP temperature call raises. -/
def bmpFailReads : Reads :=
  { bmpTemperature := .error (), bmpPressure := .ok (.num 1000),
    bmpAltitude := .ok (.num 100), dhtPresent := true,
    dhtAccess := .ok (.num 21, .num 40), lightPresent := true,
    lightAccess := .ok (.num 50), cpuTempAccess := .ok 45,
    cpuUsage := .ok 10, memUsage := .ok 30 }

/-- Sensor reads where the wrapped DHT, light and cpu-temperature calls all
raise while the unguarded reads succeed. -/
def wrappedFailReads : Reads :=
  { bmpTemperature := .ok (.num 20), bmpPressure := .ok (.num 1000),
    bmpAltitude := .ok (.num 100), dhtPresent := true,
    dhtAccess := .error (), lightPresent := true,
    lightAccess := .error (), cpuTempAccess := .error (),
    cpuUsage := .ok 10, memUsage := .ok 30 }

end Tempestas

/-- Claim C1: for a sample window whose valid (available) readings number N,
`nanmedian` drops the unavailable entries, fully orders the rest, and returns
the standard median: for odd N the middle element of the sorted residue, for
even N the arithmetic mean of the two central elements, and for N = 0 the
unavailable marker. -/
theorem Tempestas.nanmedian_is_standard_median (w : List (Option ℚ)) :
    (((w.filterMap id).insertionSort (fun a b => a ≤ b)).Sorted (· ≤ ·) ∧
      ((w.filterMap id).insertionSort (fun a b => a ≤ b)).Perm (w.filterMap id)) ∧
    ((w.filterMap id).length = 0 → nanmedian w = none) ∧
    (∀ m : ℕ, (w.filterMap id).length = 2 * m + 1 →
      nanmedian w =
        some (((w.filterMap id).insertionSort (fun a b => a ≤ b)).getD m 0)) ∧
    (∀ m : ℕ, (w.filterMap id).length = 2 * m + 2 →
      nanmedian w =
        some ((((w.filterMap id).insertionSort (fun a b => a ≤ b)).getD m 0 +
          ((w.filterMap id).insertionSort (fun a b => a ≤ b)).getD (m + 1) 0) / 2)) := by
  refine ⟨⟨List.sorted_insertionSort _ _, List.perm_insertionSort _ _⟩, ?_, ?_, ?_⟩
  · intro h
    have hnil : w.filterMap id = [] := List.length_eq_zero.mp h
    simp [nanmedian, hnil]
  · intro m hm
    have hne : (w.filterMap id).isEmpty = false := by
      cases hval : w.filterMap id with
      | nil => rw [hval] at hm; simp at hm
      | cons a l => simp
    have hlen : ((w.filterMap id).insertionSort (fun a b => a ≤ b)).length = 2 * m + 1 := by
      rw [List.length_insertionSort]; exact hm
    have hmod : (2 * m + 1) % 2 = 1 := by omega
    have hdiv : (2 * m + 1) / 2 = m := by omega
    simp only [nanmedian, median, hne, Bool.false_eq_true, if_false, hlen, hmod, hdiv,
      if_true]
  · intro m hm
    have hne : (w.filterMap id).isEmpty = false := by
      cases hval : w.filterMap id with
      | nil => rw [hval] at hm; simp at hm
      | cons a l => simp
    have hlen : ((w.filterMap id).insertionSort (fun a b => a ≤ b)).length = 2 * m + 2 := by
      rw [List.length_insertionSort]; exact hm
    have hmod : ¬ ((2 * m + 2) % 2 = 1) := by omega
    have hdiv : (2 * m + 2) / 2 = m + 1 := by omega
    have hdiv1 : (2 * m + 2) / 2 - 1 = m := by omega
    simp only [nanmedian, median, hne, Bool.false_eq_true, if_false, hlen, hmod, hdiv,
      hdiv1, if_true]
    norm_num

/-- Witness for C1 at a concrete window: `[some 3, none, some 1, some 2]` has
three valid readings; the aggregate is the middle element 2 of the sorted
residue `[1, 2, 3]`. -/
theorem Tempestas.nanmedian_is_standard_median_witness :
    (([some 3, none, some 1, some 2] : List (Option ℚ)).filterMap id).length = 2 * 1 + 1 ∧
    Tempestas.nanmedian [some 3, none, some 1, some 2] =
      some (((([some 3, none, some 1, some 2] : List (Option ℚ)).filterMap
        id).insertionSort (fun a b => a ≤ b)).getD 1 0) :=
  ⟨by decide,
    (Tempestas.nanmedian_is_standard_median [some 3, none, some 1, some 2]).2.2.1 1
      (by decide)⟩

/-- Claim C2: if the copy primitive fails on exactly the first k attempts and
succeeds on attempt k+1, with k below the retry ceiling, the wrapper returns
confirmed, invokes the primitive exactly k+1 times, and performs a fixed 5 s
back-off sleep between each pair of consecutive attempts. -/
theorem Tempestas.scp_confirmed_after_k_failures (k : ℕ)
    (hk : k < Tempestas.SCP_MAX_RETRIES) :
    Tempestas.scp_with_retries (fun a => decide (k < a)) =
      { ok := true, calls := k + 1, sleeps := List.replicate k 5 } := by
  have hk3 : k < 3 := hk
  interval_cases k <;> rfl

/-- Witness for C2 at k = 2: two failures, success on the third attempt. -/
theorem Tempestas.scp_confirmed_after_k_failures_witness :
    (2 : ℕ) < Tempestas.SCP_MAX_RETRIES ∧
    Tempestas.scp_with_retries (fun a => decide (2 < a)) =
      { ok := true, calls := 2 + 1, sleeps := List.replicate 2 5 } :=
  ⟨by decide, Tempestas.scp_confirmed_after_k_failures 2 (by decide)⟩

theorem Tempestas.scpLoop_all_fail (succ : ℕ → Bool) (h : ∀ a, succ a = false) :
    Tempestas.scp_with_retries succ = { ok := false, calls := 3, sleeps := [5, 5] } := by
  simp [Tempestas.scp_with_retries, Tempestas.scpLoop, Tempestas.SCP_MAX_RETRIES, h]

/-- Claim C3: against a copy primitive that always fails, the wrapper returns
exhausted (false) after exactly SCP_MAX_RETRIES = 3 invocations (sleeping only
between attempts), and the transfer cycle deletes no local artifact. -/
theorem Tempestas.scp_exhausted_keeps_artifacts (succ : ℕ → Bool)
    (h : ∀ a, succ a = false) (images : List ℕ) (imgSucc : ℕ → ℕ → Bool)
    (h2 : ∀ p a, imgSucc p a = false) (wSucc sSucc : ℕ → Bool) :
    Tempestas.scp_with_retries succ = { ok := false, calls := 3, sleeps := [5, 5] } ∧
    (Tempestas.send_data images imgSucc wSucc sSucc).remaining = images := by
  constructor
  · simp [Tempestas.scp_with_retries, Tempestas.scpLoop, Tempestas.SCP_MAX_RETRIES, h]
  · have hok : ∀ p, (Tempestas.scp_with_retries (imgSucc p)).ok = false := by
      intro p
      simp [Tempestas.scp_with_retries, Tempestas.scpLoop, Tempestas.SCP_MAX_RETRIES, h2]
    simp [Tempestas.send_data, hok, List.filter_eq_self]

/-- Witness for C3: backlog of one image named 7, every transfer failing;
the wrapper reports exhausted after three calls and image 7 stays local. -/
theorem Tempestas.scp_exhausted_keeps_artifacts_witness :
    (∀ a : ℕ, (fun _ : ℕ => false) a = false) ∧
    (Tempestas.scp_with_retries (fun _ => false) =
        { ok := false, calls := 3, sleeps := [5, 5] } ∧
      (Tempestas.send_data [7] (fun _ _ => false) (fun _ => false)
        (fun _ => false)).remaining = [7]) :=
  ⟨fun _ => rfl,
    Tempestas.scp_exhausted_keeps_artifacts (fun _ => false) (fun _ => rfl) [7]
      (fun _ _ => false) (fun _ _ => rfl) (fun _ => false) (fun _ => false)⟩

/-- Counterexample to claim C5: in a cycle with no images and both CSV
transfers confirmed, the two log files' Transfer Outcomes are confirmed but
their local copies are not deleted, so "deleted if and only if confirmed"
fails for the log-file artifacts. -/
theorem Tempestas.send_data_confirmed_csv_not_deleted :
    (Tempestas.send_data [] (fun _ _ => true) (fun _ => true) (fun _ => true)).weatherOk
        = true ∧
    (Tempestas.send_data [] (fun _ _ => true) (fun _ => true) (fun _ => true)).systemOk
        = true ∧
    (Tempestas.send_data [] (fun _ _ => true) (fun _ => true)
        (fun _ => true)).weatherDeleted = false ∧
    (Tempestas.send_data [] (fun _ _ => true) (fun _ => true)
        (fun _ => true)).systemDeleted = false := by
  decide

/-- Claim C5 as amended: for every image in the backlog, its local copy is
deleted by the cycle if and only if its Transfer Outcome is confirmed; the two
log files are never deleted by the transfer cycle, whatever their outcomes. -/
theorem Tempestas.send_data_image_deleted_iff_confirmed (images : List ℕ)
    (imgSucc : ℕ → ℕ → Bool) (wSucc sSucc : ℕ → Bool) (p : ℕ) (hp : p ∈ images) :
    (p ∉ (Tempestas.send_data images imgSucc wSucc sSucc).remaining ↔
      (p, true) ∈ (Tempestas.send_data images imgSucc wSucc sSucc).imageOutcomes) ∧
    (Tempestas.send_data images imgSucc wSucc sSucc).weatherDeleted = false ∧
    (Tempestas.send_data images imgSucc wSucc sSucc).systemDeleted = false := by
  refine ⟨?_, rfl, rfl⟩
  have hkey : ∀ outs : List (ℕ × Bool),
      p ∈ (outs.filter (fun x => x.2)).map Prod.fst ↔ (p, true) ∈ outs := by
    intro outs
    simp only [List.mem_map, List.mem_filter]
    constructor
    · rintro ⟨⟨x1, x2⟩, ⟨hmem, hb⟩, hq⟩
      simp only at hb hq
      subst hq
      subst hb
      exact hmem
    · intro hmem
      exact ⟨(p, true), ⟨hmem, rfl⟩, rfl⟩
  have hrem : (Tempestas.send_data images imgSucc wSucc sSucc).remaining =
      images.filter (fun q => !((((Tempestas.selectCandidates images).map
        (fun q2 => (q2, (Tempestas.scp_with_retries (imgSucc q2)).ok))).filter
        (fun x => x.2)).map Prod.fst).contains q) := rfl
  have houts : (Tempestas.send_data images imgSucc wSucc sSucc).imageOutcomes =
      (Tempestas.selectCandidates images).map
        (fun q => (q, (Tempestas.scp_with_retries (imgSucc q)).ok)) := rfl
  rw [hrem, houts, ← hkey]
  constructor
  · intro hno
    by_contra hnd
    exact hno (List.mem_filter.mpr ⟨hp, by simp [List.contains, hnd]⟩)
  · intro hdel hcon
    have h2 := (List.mem_filter.mp hcon).2
    simp [List.contains, hdel] at h2

/-- Witness for the amended C5: backlog of one image named 7, its transfer
confirmed on the first attempt; the image is deleted and the CSVs are not. -/
theorem Tempestas.send_data_image_deleted_iff_confirmed_witness :
    (7 : ℕ) ∈ [7] ∧
    ((7 ∉ (Tempestas.send_data [7] (fun _ _ => true) (fun _ => true)
          (fun _ => true)).remaining ↔
        ((7 : ℕ), true) ∈ (Tempestas.send_data [7] (fun _ _ => true) (fun _ => true)
          (fun _ => true)).imageOutcomes) ∧
      (Tempestas.send_data [7] (fun _ _ => true) (fun _ => true)
        (fun _ => true)).weatherDeleted = false ∧
      (Tempestas.send_data [7] (fun _ _ => true) (fun _ => true)
        (fun _ => true)).systemDeleted = false) :=
  ⟨by decide,
    Tempestas.send_data_image_deleted_iff_confirmed [7] (fun _ _ => true)
      (fun _ => true) (fun _ => true) 7 (by decide)⟩

theorem Tempestas.foldl_appendRow (f : List (List String)) (rows : List (List String)) :
    rows.foldl Tempestas.appendRow f = f ++ rows := by
  induction rows generalizing f with
  | nil => simp
  | cons r rs ih => simp [List.foldl_cons, Tempestas.appendRow, ih]

/-- Claim C6: truncation by `del_data` leaves each of the two log files with
exactly one line, its header row, byte-identical to the header written at file
creation by `ensure_paths`; appending data rows afterwards preserves the
single-header invariant. -/
theorem Tempestas.del_data_header_invariant :
    Tempestas.del_data.1.length = 1 ∧ Tempestas.del_data.2.length = 1 ∧
    Tempestas.del_data.1 = [Tempestas.weatherHeaderCreate] ∧
    Tempestas.del_data.2 = [Tempestas.systemHeaderCreate] ∧
    Tempestas.weatherHeaderTrunc = Tempestas.weatherHeaderCreate ∧
    Tempestas.systemHeaderTrunc = Tempestas.systemHeaderCreate ∧
    (∀ rows : List (List String),
      (∀ row ∈ rows, row ≠ Tempestas.weatherHeaderCreate) →
      (rows.foldl Tempestas.appendRow Tempestas.del_data.1).countP
        (fun row => decide (row = Tempestas.weatherHeaderCreate)) = 1) ∧
    (∀ rows : List (List String),
      (∀ row ∈ rows, row ≠ Tempestas.systemHeaderCreate) →
      (rows.foldl Tempestas.appendRow Tempestas.del_data.2).countP
        (fun row => decide (row = Tempestas.systemHeaderCreate)) = 1) := by
  refine ⟨rfl, rfl, rfl, rfl, rfl, rfl, ?_, ?_⟩
  · intro rows hrows
    rw [Tempestas.foldl_appendRow]
    have h0 : rows.countP (fun row => decide (row = Tempestas.weatherHeaderCreate)) = 0 :=
      List.countP_eq_zero.mpr (fun a ha => by simpa using hrows a ha)
    have hh : Tempestas.weatherHeaderTrunc = Tempestas.weatherHeaderCreate := rfl
    simp [Tempestas.del_data, List.countP_cons, h0, hh]
  · intro rows hrows
    rw [Tempestas.foldl_appendRow]
    have h0 : rows.countP (fun row => decide (row = Tempestas.systemHeaderCreate)) = 0 :=
      List.countP_eq_zero.mpr (fun a ha => by simpa using hrows a ha)
    have hh : Tempestas.systemHeaderTrunc = Tempestas.systemHeaderCreate := rfl
    simp [Tempestas.del_data, List.countP_cons, h0, hh]

/-- Witness for C6: after truncation, appending one data row leaves exactly
one header line in the weather log. -/
theorem Tempestas.del_data_header_invariant_witness :
    (∀ row ∈ [["2024-01-01", "1", "2", "3", "4", "5", "6"]],
      row ≠ Tempestas.weatherHeaderCreate) ∧
    ([["2024-01-01", "1", "2", "3", "4", "5", "6"]].foldl Tempestas.appendRow
      Tempestas.del_data.1).countP
        (fun row => decide (row = Tempestas.weatherHeaderCreate)) = 1 :=
  ⟨by decide,
    (Tempestas.del_data_header_invariant).2.2.2.2.2.2.1
      [["2024-01-01", "1", "2", "3", "4", "5", "6"]] (by decide)⟩

/-- Claim C7: when the image backlog exceeds MAX_IMAGE_FILES = 100, the
candidate set of one transfer cycle is exactly the 100 most recent images
(the largest timestamp-names), and every older image is neither transferred
(it appears in no outcome) nor deleted (it is still present afterwards). -/
theorem Tempestas.send_data_candidates_most_recent (images : List ℕ)
    (hnd : images.Nodup) (hlen : Tempestas.MAX_IMAGE_FILES < images.length)
    (imgSucc : ℕ → ℕ → Bool) (wSucc sSucc : ℕ → Bool) :
    (Tempestas.selectCandidates images).length = Tempestas.MAX_IMAGE_FILES ∧
    (∀ c ∈ Tempestas.selectCandidates images, c ∈ images) ∧
    (∀ o ∈ images, o ∉ Tempestas.selectCandidates images →
      (∀ c ∈ Tempestas.selectCandidates images, o < c) ∧
      (∀ x ∈ (Tempestas.send_data images imgSucc wSucc sSucc).imageOutcomes,
        x.1 ≠ o) ∧
      o ∈ (Tempestas.send_data images imgSucc wSucc sSucc).remaining) := by
  have hperm := List.perm_insertionSort (fun a b : ℕ => a ≤ b) images
  have hsort := List.sorted_insertionSort (fun a b : ℕ => a ≤ b) images
  set s := images.insertionSort (fun a b : ℕ => a ≤ b) with hs
  have hslen : s.length = images.length := List.length_insertionSort _ _
  have hKlen : Tempestas.MAX_IMAGE_FILES < s.length := by rw [hslen]; exact hlen
  have hsel : Tempestas.selectCandidates images =
      s.drop (s.length - Tempestas.MAX_IMAGE_FILES) := by
    simp only [Tempestas.selectCandidates, ← hs]
    rw [if_pos hKlen]
  have hsplit : s.take (s.length - Tempestas.MAX_IMAGE_FILES) ++
      s.drop (s.length - Tempestas.MAX_IMAGE_FILES) = s :=
    List.take_append_drop _ s
  refine ⟨?_, ?_, ?_⟩
  · rw [hsel, List.length_drop]
    omega
  · intro c hc
    rw [hsel] at hc
    exact hperm.mem_iff.mp (List.mem_of_mem_drop hc)
  · intro o ho hno
    rw [hsel] at hno
    have hos : o ∈ s := hperm.mem_iff.mpr ho
    have hot : o ∈ s.take (s.length - Tempestas.MAX_IMAGE_FILES) := by
      rw [← hsplit] at hos
      rcases List.mem_append.mp hos with h1 | h2
      · exact h1
      · exact absurd h2 hno
    have hpw : List.Pairwise (fun a b : ℕ => a ≤ b)
        (s.take (s.length - Tempestas.MAX_IMAGE_FILES) ++
          s.drop (s.length - Tempestas.MAX_IMAGE_FILES)) := by
      rw [hsplit]; exact hsort
    have hle := (List.pairwise_append.mp hpw).2.2
    have hnds : s.Nodup := hperm.nodup_iff.mpr hnd
    have hnds2 : (s.take (s.length - Tempestas.MAX_IMAGE_FILES) ++
        s.drop (s.length - Tempestas.MAX_IMAGE_FILES)).Nodup := by
      rw [hsplit]; exact hnds
    have hdisj := (List.nodup_append.mp hnds2).2.2
    have hcand : ∀ x ∈ (Tempestas.selectCandidates images).map
        (fun q => (q, (Tempestas.scp_with_retries (imgSucc q)).ok)),
        x.1 ∈ Tempestas.selectCandidates images := by
      rintro x hx
      obtain ⟨q, hq, rfl⟩ := List.mem_map.mp hx
      exact hq
    refine ⟨?_, ?_, ?_⟩
    · intro c hc
      rw [hsel] at hc
      have h1 : o ≤ c := hle o hot c hc
      have hne : o ≠ c := by
        intro he
        exact hdisj hot (he.symm ▸ hc)
      exact lt_of_le_of_ne h1 hne
    · intro x hx hxo
      have hx1 := hcand x hx
      rw [hsel] at hx1
      rw [hxo] at hx1
      exact hno hx1
    · have hrem : (Tempestas.send_data images imgSucc wSucc sSucc).remaining =
          images.filter (fun q => !((((Tempestas.selectCandidates images).map
            (fun q2 => (q2, (Tempestas.scp_with_retries (imgSucc q2)).ok))).filter
            (fun x => x.2)).map Prod.fst).contains q) := rfl
      rw [hrem]
      refine List.mem_filter.mpr ⟨ho, ?_⟩
      simp only [Bool.not_eq_true', List.contains, List.elem_eq_mem,
        decide_eq_false_iff_not]
      intro hdel
      obtain ⟨x, hxf, hx1⟩ := List.mem_map.mp hdel
      have hx2 := hcand x (List.mem_of_mem_filter hxf)
      rw [hsel] at hx2
      rw [hx1] at hx2
      exact hno hx2

/-- Witness for C7: a backlog of 101 distinct images; the candidate set has
exactly 100 members. -/
theorem Tempestas.send_data_candidates_most_recent_witness :
    (List.range 101).Nodup ∧
    Tempestas.MAX_IMAGE_FILES < (List.range 101).length ∧
    (Tempestas.selectCandidates (List.range 101)).length =
      Tempestas.MAX_IMAGE_FILES :=
  ⟨List.nodup_range 101, by simp [Tempestas.MAX_IMAGE_FILES],
    (Tempestas.send_data_candidates_most_recent (List.range 101)
      (List.nodup_range 101) (by simp [Tempestas.MAX_IMAGE_FILES])
      (fun _ _ => true) (fun _ => true) (fun _ => true)).1⟩

/-- Counterexample to claim C4: a windowed pass whose single collection
iteration raised before its first append (completed = 0) collects zero
samples; `makedata_time` then produces NO Aggregate Record at all (it returns
early), instead of producing one record with the field unavailable. -/
theorem Tempestas.makedata_time_zero_samples_no_record :
    Tempestas.makedata_time [Tempestas.abortedIter] = none := rfl

/-- Claim C4 as amended: if the collection loop performed at least one append
of the leading quantity (BMP temperature), the pass produces exactly one
Aggregate Record, and any quantity whose window carries zero valid readings
gets the unavailable marker in that record; if even the leading quantity
collected zero samples, the pass instead produces no record. -/
theorem Tempestas.makedata_time_record_when_samples
    (iters : List Tempestas.IterOutcome)
    (h : ∃ it ∈ iters, 0 < it.completed) :
    ∃ rw rs, Tempestas.makedata_time iters = some (rw, rs) ∧
      ((Tempestas.collect iters 4 (fun it => it.dhtTemp)).filterMap id = [] →
        rw.dhtTemp = none) ∧
      ((Tempestas.collect iters 7 (fun it => it.cpuUsage)).filterMap id = [] →
        rs.cpuUsage = none) := by
  obtain ⟨it, hit, hc⟩ := h
  have hmem : it.bmpTemp ∈ Tempestas.collect iters 0 (fun x => x.bmpTemp) := by
    refine List.mem_filterMap.mpr ⟨it, hit, ?_⟩
    rw [if_pos hc]
  have hne : (Tempestas.collect iters 0 (fun x => x.bmpTemp)).isEmpty = false := by
    cases hcol : Tempestas.collect iters 0 (fun x => x.bmpTemp) with
    | nil => rw [hcol] at hmem; exact absurd hmem (by simp)
    | cons a l => simp
  have hmain : Tempestas.makedata_time iters =
      some
        ({ bmpTemp := Tempestas.nanmedian (Tempestas.collect iters 0 (fun x => x.bmpTemp)),
           pressure := Tempestas.nanmedian (Tempestas.collect iters 1 (fun x => x.pressure)),
           altitude := Tempestas.nanmedian (Tempestas.collect iters 2 (fun x => x.altitude)),
           dhtTemp := Tempestas.nanmedian (Tempestas.collect iters 4 (fun x => x.dhtTemp)),
           humidity := Tempestas.nanmedian (Tempestas.collect iters 5 (fun x => x.humidity)),
           light := Tempestas.nanmedian (Tempestas.collect iters 3 (fun x => x.light)) },
         { cpuTemp := Tempestas.nanmedian (Tempestas.collect iters 6 (fun x => x.cpuTemp)),
           cpuUsage := Tempestas.nanmedian (Tempestas.collect iters 7 (fun x => x.cpuUsage)),
           memUsage := Tempestas.nanmedian (Tempestas.collect iters 8 (fun x => x.memUsage)) }) := by
    simp only [Tempestas.makedata_time, hne, Bool.false_eq_true, if_false]
  refine ⟨_, _, hmain, ?_, ?_⟩
  · intro hempty
    simp [Tempestas.nanmedian, hempty]
  · intro hempty
    simp [Tempestas.nanmedian, hempty]

/-- Witness for the amended C4: one complete iteration whose DHT reading is
unavailable; a record is produced and its DHT field is unavailable. -/
theorem Tempestas.makedata_time_record_when_samples_witness :
    (∃ it ∈ [Tempestas.dhtMissingIter], 0 < it.completed) ∧
    (∃ rw rs, Tempestas.makedata_time [Tempestas.dhtMissingIter] = some (rw, rs) ∧
      ((Tempestas.collect [Tempestas.dhtMissingIter] 4
          (fun it => it.dhtTemp)).filterMap id = [] → rw.dhtTemp = none) ∧
      ((Tempestas.collect [Tempestas.dhtMissingIter] 7
          (fun it => it.cpuUsage)).filterMap id = [] → rs.cpuUsage = none)) :=
  ⟨⟨Tempestas.dhtMissingIter, by simp, by decide⟩,
    Tempestas.makedata_time_record_when_samples [Tempestas.dhtMissingIter]
      ⟨Tempestas.dhtMissingIter, by simp, by decide⟩⟩

/-- Counterexample to claim C9: in the single-shot pass, the BMP temperature
read is evaluated before `safe_float` is entered, so a read failure there
propagates out of the sampling pass instead of being converted to the
unavailable marker. -/
theorem Tempestas.makedata_raw_failure_escapes :
    Tempestas.makedata Tempestas.bmpFailReads = .error () := rfl

/-- Claim C9 as amended: the wrapped read helpers (DHT, BH1750 light, CPU
temperature) convert any failure of the underlying read to the unavailable
marker, and no such failure reaches the record or escapes the pass; but a
failure raised by the unguarded BMP, CPU-usage or memory reads propagates out
of the single-shot pass, which then writes no record. -/
theorem Tempestas.makedata_wrapped_reads_unavailable (r : Tempestas.Reads)
    (h1 : ∃ v, r.bmpTemperature = .ok v) (h2 : ∃ v, r.bmpPressure = .ok v)
    (h3 : ∃ v, r.bmpAltitude = .ok v) (h4 : ∃ v, r.cpuUsage = .ok v)
    (h5 : ∃ v, r.memUsage = .ok v) :
    ∃ rw rs, Tempestas.makedata r = Except.ok (rw, rs) ∧
      (r.dhtAccess = .error () → rw.dhtTemp = none ∧ rw.humidity = none) ∧
      (r.lightAccess = .error () → rw.light = none) ∧
      (r.cpuTempAccess = .error () → rs.cpuTemp = none) := by
  obtain ⟨v1, e1⟩ := h1
  obtain ⟨v2, e2⟩ := h2
  obtain ⟨v3, e3⟩ := h3
  obtain ⟨v4, e4⟩ := h4
  obtain ⟨v5, e5⟩ := h5
  refine ⟨{ bmpTemp := Tempestas.safe_float v1,
            pressure := (Tempestas.safe_float v2).map (fun x => x / 100),
            altitude := Tempestas.safe_float v3,
            dhtTemp := (Tempestas.read_dht r.dhtPresent r.dhtAccess).1,
            humidity := (Tempestas.read_dht r.dhtPresent r.dhtAccess).2,
            light := Tempestas.read_bh1750 r.lightPresent r.lightAccess },
          { cpuTemp := Tempestas.get_cpu_temp r.cpuTempAccess,
            cpuUsage := some v4, memUsage := some v5 }, ?_, ?_, ?_, ?_⟩
  · unfold Tempestas.makedata
    rw [e1, e2, e3, e4, e5]
    rfl
  · intro he
    constructor <;> simp [Tempestas.read_dht, he]
  · intro he
    simp [Tempestas.read_bh1750, he]
  · intro he
    simp [Tempestas.get_cpu_temp, he]

/-- Witness for the amended C9: BMP and host reads succeed while DHT, light
and CPU-temperature reads all raise; the pass succeeds and those three fields
are unavailable. -/
theorem Tempestas.makedata_wrapped_reads_unavailable_witness :
    (∃ v, Tempestas.wrappedFailReads.bmpTemperature = .ok v) ∧
    (∃ rw rs, Tempestas.makedata Tempestas.wrappedFailReads = Except.ok (rw, rs) ∧
      (Tempestas.wrappedFailReads.dhtAccess = .error () →
        rw.dhtTemp = none ∧ rw.humidity = none) ∧
      (Tempestas.wrappedFailReads.lightAccess = .error () → rw.light = none) ∧
      (Tempestas.wrappedFailReads.cpuTempAccess = .error () → rs.cpuTemp = none)) :=
  ⟨⟨.num 20, rfl⟩,
    Tempestas.makedata_wrapped_reads_unavailable Tempestas.wrappedFailReads
      ⟨.num 20, rfl⟩ ⟨.num 1000, rfl⟩ ⟨.num 100, rfl⟩ ⟨10, rfl⟩ ⟨30, rfl⟩⟩

/-- Claim C8: a sensor-read failure (RuntimeError) inside any pass of a loop
iteration is caught, logged, and followed by a brief sleep, after which the
loop continues with the remaining schedule; an unexpected failure terminates
the loop after logging it; an operator interrupt terminates the loop cleanly
and immediately, whatever would have followed. -/
theorem Tempestas.mainLoop_failure_semantics (rest : List Tempestas.LoopEvent) :
    Tempestas.mainLoop (.sensorError :: rest) =
      { iterations := (Tempestas.mainLoop rest).iterations + 1,
        errorLogs := (Tempestas.mainLoop rest).errorLogs + 1,
        briefSleeps := (Tempestas.mainLoop rest).briefSleeps + 1,
        exitKind := (Tempestas.mainLoop rest).exitKind } ∧
    Tempestas.mainLoop (.unexpected :: rest) =
      { iterations := 1, errorLogs := 1, briefSleeps := 0,
        exitKind := .crashed } ∧
    Tempestas.mainLoop (.interrupt :: rest) =
      { iterations := 1, errorLogs := 0, briefSleeps := 0,
        exitKind := .interrupted } :=
  ⟨rfl, rfl, rfl⟩

/-- Claim C10: one invocation of the windowed pass either appends exactly one
row to each of the two logs or leaves both unchanged; in particular a pass
that collected zero samples leaves both logs unchanged, and it never writes
one log without the other. -/
theorem Tempestas.makedata_time_logs_frame (iters : List Tempestas.IterOutcome)
    (logs : List Tempestas.WeatherRow × List Tempestas.SystemRow) :
    ((Tempestas.makedata_time_logs iters logs = logs) ∨
      (∃ rw rs, Tempestas.makedata_time_logs iters logs =
        (logs.1 ++ [rw], logs.2 ++ [rs]))) ∧
    (Tempestas.collect iters 0 (fun it => it.bmpTemp) = [] →
      Tempestas.makedata_time_logs iters logs = logs) := by
  constructor
  · cases hmt : Tempestas.makedata_time iters with
    | none => exact Or.inl (by simp [Tempestas.makedata_time_logs, hmt])
    | some rr =>
      obtain ⟨rw1, rs1⟩ := rr
      exact Or.inr ⟨rw1, rs1, by simp [Tempestas.makedata_time_logs, hmt]⟩
  · intro hempty
    have hnone : Tempestas.makedata_time iters = none := by
      simp [Tempestas.makedata_time, hempty]
    simp [Tempestas.makedata_time_logs, hnone]

/-- Witness for C10 at the empty iteration list: both logs unchanged. -/
theorem Tempestas.makedata_time_logs_frame_witness :
    Tempestas.collect [] 0 (fun it => it.bmpTemp) = [] ∧
    Tempestas.makedata_time_logs [] ([], []) = ([], []) :=
  ⟨rfl, (Tempestas.makedata_time_logs_frame [] ([], [])).2 rfl⟩
